import Mathlib

/-!
Verification of the vkpanel fleet status & floating-IP reconciliation engine.

The definitions below are a shallow embedding of the Python sources:
  * `src/app/ssh.py`        — remote status reader, controller, CLI inventory, rebind
  * `src/app/openstack.py`  — cloud identity & inventory client
  * `src/app/data.py`       — persisted-document load/save helpers
  * `src/app/main.py`       — refresh endpoints and the merged read views

Remote I/O (SSH command execution and HTTP calls) is modelled by oracle
records: each remote step's outcome is a field of an environment structure
(`Except` for "the call raised" versus "the call returned (code, out, err)"),
and the embedded function is the pure computation the Python code performs
on those outcomes, mirroring the source's control flow (including the broad
`except` handlers and the mutation order of the result dictionaries).
-/

namespace VKPanel

/-! ### Python-style string and dictionary helpers -/

/-- Python truthiness of an optional string: `None` and `""` are falsy. -/
def truthyStr : Option String → Bool
  | none => false
  | some s => !s.toList.isEmpty

/-- Python `a or b` on optional strings (falsy `a` yields `b`). -/
def pyOr (a b : Option String) : Option String :=
  if truthyStr a then a else b

/-- Strip characters satisfying `p` from both ends (Python `str.strip(chars)`). -/
def stripEnds (p : Char → Bool) (s : String) : String :=
  String.mk (((s.toList.dropWhile p).reverse.dropWhile p).reverse)

/-- Python `str.strip()`: strip whitespace from both ends. -/
def pyStrip (s : String) : String :=
  stripEnds Char.isWhitespace s

/-- Python `s.startswith(pre)`. -/
def pyStartsWith (s pre : String) : Bool :=
  pre.toList.isPrefixOf s.toList

/-- Python `s[:n]`. -/
def pyTake (s : String) (n : Nat) : String :=
  String.mk (s.toList.take n)

/-- Helper for single-character splitting, accumulating the current piece. -/
def splitOnCharAux (c : Char) : List Char → List Char → List (List Char)
  | [], acc => [acc.reverse]
  | x :: xs, acc =>
    if x == c then acc.reverse :: splitOnCharAux c xs []
    else splitOnCharAux c xs (x :: acc)

/-- Python `s.split(c)` for a one-character separator (`"".split(c) = [""]`). -/
def pySplitChar (c : Char) (s : String) : List String :=
  (splitOnCharAux c s.toList []).map String.mk

/-- Everything after the first occurrence of character `sep`
(Python `s.split(sep, 1)[1]`); empty when `sep` does not occur. -/
def splitOnceRest (s : String) (sep : Char) : String :=
  match pySplitChar sep s with
  | [] => ""
  | [_] => ""
  | _ :: rest => String.intercalate (String.mk [sep]) rest

/-- Python `dict.get(k)` on an association list. -/
def pyDictGet {V : Type} (m : List (String × V)) (k : String) : Option V :=
  (m.find? (fun p => p.1 == k)).map (fun p => p.2)

/-- Whether an association list carries key `k` (Python `k in d`). -/
def hasKey {V : Type} (m : List (String × V)) (k : String) : Bool :=
  m.any (fun p => p.1 == k)

/-- Python `dict[k] = v`: overwrite in place when present, else append. -/
def dictInsert {V : Type} (m : List (String × V)) (k : String) (v : V) :
    List (String × V) :=
  if hasKey m k then m.map (fun p => if p.1 == k then (k, v) else p)
  else m ++ [(k, v)]

/-- Python `dict.setdefault(k, v)`: append `(k, v)` only when `k` is absent. -/
def setdefault {V : Type} (m : List (String × V)) (k : String) (v : V) :
    List (String × V) :=
  if hasKey m k then m else m ++ [(k, v)]

/-! ### `.env` grep parsing (ssh.py lines 99–108 and 221–230)

The remote `grep -E '^OS_USERNAME=|^OS_PROJECT_NAME='` output is processed
line by line; the value is everything after the first `=`, stripped of
whitespace, then of double quotes, then of single quotes. -/

/-- Value extraction for one matched `.env` line
(`line.split("=", 1)[1].strip().strip(double-quote).strip(single-quote)`). -/
def parseEnvValue (line : String) : String :=
  stripEnds (fun c => c == Char.ofNat 39)
    (stripEnds (fun c => c == Char.ofNat 34) (pyStrip (splitOnceRest line (Char.ofNat 61))))

/-- Fold of ssh.py lines 103–108: starting from `(account, project) = (None, None)`,
each output line starting with `OS_USERNAME=` or `OS_PROJECT_NAME=` sets the
corresponding component.  Nothing is parsed unless the remote grep exited 0
with non-blank output. -/
def parseEnvGrep (code : Nat) (out : String) : Option String × Option String :=
  if code == 0 && !((pyStrip out).toList.isEmpty) then
    (pySplitChar (Char.ofNat 10) (pyStrip out)).foldl
      (fun acc line =>
        if pyStartsWith line "OS_USERNAME=" then (some (parseEnvValue line), acc.2)
        else if pyStartsWith line "OS_PROJECT_NAME=" then (acc.1, some (parseEnvValue line))
        else acc)
      (none, none)
  else (none, none)

/-! ### Agent state file (ssh.py lines 110–133) -/

/-- One entry of an allocation bucket of the agent's JSON state file.
The code reads only `floating_ip`; `created_at` stands for the timestamp
data the entry may carry, which the extraction never consults. -/
structure AllocEntry where
  floating_ip : Option String
  created_at : Option Nat
deriving Repr, DecidableEq

/-- `meta` object of the state file: `cycle_no` and the per-bucket `stats`
with their optional `success` counters (bucket key × counter). -/
structure StateMeta where
  cycle_no : Option Nat
  stats : List (String × Option Nat)
deriving Repr, DecidableEq

/-- Parsed agent state file: optional `meta`, and the `allocated` object as
its buckets in object order (subnet key × entry array). -/
structure StateFile where
  meta : Option StateMeta
  allocated : List (String × List AllocEntry)
deriving Repr, DecidableEq

/-- ssh.py line 120: `meta.get("cycle_no", 0)` with `meta = state.get("meta", {})`. -/
def stateCycles (st : StateFile) : Nat :=
  match st.meta with
  | some m => m.cycle_no.getD 0
  | none => 0

/-- ssh.py lines 122–124: `sum(s.get("success", 0) for s in stats.values())`. -/
def stateSuccess (st : StateFile) : Nat :=
  match st.meta with
  | some m => (m.stats.map (fun b => b.2.getD 0)).sum
  | none => 0

/-- ssh.py lines 127–131: loop over `allocated.values()`, overwriting
`last_ip` with `bucket[-1].get("floating_ip")` for every non-empty bucket. -/
def lastIpOfAllocated (allocated : List (String × List AllocEntry)) : Option String :=
  allocated.foldl
    (fun acc b =>
      match b.2.getLast? with
      | some e => e.floating_ip
      | none => acc)
    none

/-! ### Agent status reader (ssh.py `get_script_status`, lines 58–142) -/

/-- Content of the remote `cat state_file` output as the embedding sees it:
blank output, JSON that fails to decode, or a parsed state file. -/
inductive StateContent where
  | blank : StateContent
  | malformed : StateContent
  | parsed : StateFile → StateContent
deriving Repr, DecidableEq

/-- Oracle for one `get_script_status` call: the outcome of the SSH connect
and of the three sequential remote commands.  `Except.error msg` models the
Python call raising (caught by the outer `except` at line 135). -/
structure SshEnv where
  connect : Except String Unit
  isActive : Except String (Nat × String × String)
  envGrep : Except String (Nat × String × String)
  catState : Except String (Nat × StateContent)
deriving Repr

/-- The result dictionary of `get_script_status` (initialised at lines 71–80;
every field's default is the value set there). -/
structure StatusRecord where
  running : Bool := false
  error : Option String := none
  state : Option StateFile := none
  cycles : Nat := 0
  success : Nat := 0
  last_ip : Option String := none
  account : Option String := none
  project : Option String := none
deriving Repr, DecidableEq

/-- ssh.py lines 114–133: the state-file step applied to the record built so
far.  The body runs only when the `cat` exited 0 with non-blank output; a
JSON decode failure is swallowed (only logged), leaving the record as it was. -/
def applyStateStep (r : StatusRecord) (code : Nat) (content : StateContent) :
    StatusRecord :=
  if code == 0 then
    match content with
    | .blank => r
    | .malformed => r
    | .parsed st =>
      { r with
        state := some st
        cycles := stateCycles st
        success := stateSuccess st
        last_ip := lastIpOfAllocated st.allocated }
  else r

/-- Embedding of `get_script_status`: the steps run in source order inside one
`try`; a raise at any step jumps to the outer handler, which sets `error`
on the record as mutated so far. -/
def get_script_status (env : SshEnv) : StatusRecord :=
  match env.connect with
  | .error e => { error := some e }
  | .ok _ =>
    match env.isActive with
    | .error e => { error := some e }
    | .ok (_, out, _) =>
      let r1 : StatusRecord := { running := pyStrip out == "active" }
      match env.envGrep with
      | .error e => { r1 with error := some e }
      | .ok (c2, out2, _) =>
        let ap := parseEnvGrep c2 out2
        let r2 := { r1 with account := ap.1, project := ap.2 }
        match env.catState with
        | .error e => { r2 with error := some e }
        | .ok (c3, content) => applyStateStep r2 c3 content

/-- Whether any remote step of a status poll failed (raised). -/
def sshFailed (env : SshEnv) : Bool :=
  env.connect.isOk == false || env.isActive.isOk == false ||
  env.envGrep.isOk == false || env.catState.isOk == false

/-! ### Status refresh fan-out (main.py `api_refresh_status`, lines 459–507) -/

/-- One (server, script) poll target, with the oracle describing how its
remote session behaves during this poll. -/
structure Target where
  server_id : Nat
  script_id : Nat
  server_name : String
  script_name : String
  env : SshEnv
deriving Repr

/-- The per-target dictionary built by `fetch_status` (main.py lines 476–488)
and stored in the status cache. -/
structure CacheEntry where
  server_id : Nat
  script_id : Nat
  server_name : String
  script_name : String
  running : Bool
  cycles : Nat
  success : Nat
  last_ip : Option String
  error : Option String
  account : Option String
  project : Option String
deriving Repr, DecidableEq

/-- main.py `fetch_status` (lines 473–488): one worker's computation. -/
def fetch_status (t : Target) : CacheEntry :=
  let s := get_script_status t.env
  { server_id := t.server_id
    script_id := t.script_id
    server_name := t.server_name
    script_name := t.script_name
    running := s.running
    cycles := s.cycles
    success := s.success
    last_ip := s.last_ip
    error := s.error
    account := s.account
    project := s.project }

/-- main.py lines 491–492: `executor.map(fetch_status, tasks)` — an
order-preserving fan-out producing one entry per task. -/
def api_refresh_results (targets : List Target) : List CacheEntry :=
  targets.map fetch_status

/-- The `updated` count the endpoint reports (main.py line 507). -/
def api_refresh_updated (targets : List Target) : Nat :=
  (api_refresh_results targets).length

/-- Cache key `f"{server_id}-{script_id}"` (main.py line 497). -/
def cacheKey (sid scid : Nat) : String :=
  toString sid ++ "-" ++ toString scid

/-- main.py lines 495–498: build the fresh cache dictionary from the results. -/
def buildStatusCache (results : List CacheEntry) : List (String × CacheEntry) :=
  results.foldl (fun m r => dictInsert m (cacheKey r.server_id r.script_id) r) []

/-! ### Persisted document (data.py) -/

/-- JSON values, for the parts of the document the embedding treats
generically. -/
inductive JVal where
  | jnull : JVal
  | jbool : Bool → JVal
  | jnum : Int → JVal
  | jstr : String → JVal
  | jlist : List JVal → JVal
  | jobj : List (String × JVal) → JVal
deriving Repr

/-- The persisted document as the status refresh touches it: the status
cache, its timestamp, and the rest of the top-level keys, which the refresh
leaves alone. -/
structure StatusDoc where
  status_cache : List (String × CacheEntry)
  last_update : Option String
  rest : List (String × JVal)
deriving Repr

/-- data.py `save_data` (lines 52–61) at call granularity: on success the
new document replaces the persisted one and the call returns `True`; on
failure it returns `False` and the previously persisted document stands.
`ok` is the oracle for whether the write succeeds. -/
def save_data (ok : Bool) (prev d : StatusDoc) : Bool × StatusDoc :=
  if ok then (true, d) else (false, prev)

/-- main.py lines 494–502 acting on the persisted store: poll all targets,
replace the in-memory document's cache map wholesale, then persist with one
`save_data` call.  Returns the persisted document afterwards. -/
def api_refresh_store (targets : List Target) (doc prev : StatusDoc)
    (saveOk : Bool) (now : String) : StatusDoc :=
  let results := api_refresh_results targets
  let newDoc : StatusDoc :=
    { doc with
      status_cache := buildStatusCache results
      last_update := some now }
  (save_data saveOk prev newDoc).2

/-! ### Document load (data.py `load_data`, lines 15–49) -/

/-- On-disk state of the data file.  `corrupt` covers an unreadable file,
malformed JSON, and JSON whose top level is not an object (any of which
makes the `try` body raise, caught at lines 33–36). -/
inductive FileState where
  | absent : FileState
  | corrupt : FileState
  | valid : List (String × JVal) → FileState
deriving Repr

/-- The default document returned at data.py lines 38–49. -/
def emptyDoc : List (String × JVal) :=
  [("servers", .jlist []), ("accounts", .jlist []), ("projects", .jlist []),
   ("status_cache", .jobj []), ("cloud_cache", .jobj []),
   ("projects_cache", .jobj []),
   ("last_update", .jnull), ("cloud_last_update", .jnull),
   ("projects_last_update", .jnull), ("sales", .jobj [])]

/-- The `setdefault` chain of data.py lines 22–31, in source order. -/
def withDefaults (d : List (String × JVal)) : List (String × JVal) :=
  let d := setdefault d "servers" (.jlist [])
  let d := setdefault d "accounts" (.jlist [])
  let d := setdefault d "projects" (.jlist [])
  let d := setdefault d "status_cache" (.jobj [])
  let d := setdefault d "cloud_cache" (.jobj [])
  let d := setdefault d "projects_cache" (.jobj [])
  let d := setdefault d "last_update" .jnull
  let d := setdefault d "cloud_last_update" .jnull
  let d := setdefault d "projects_last_update" .jnull
  let d := setdefault d "sales" (.jobj [])
  d

/-- Embedding of `load_data`: a parsed object gets the defaults filled in;
an absent or unusable file yields the default document. -/
def load_data : FileState → List (String × JVal)
  | .absent => emptyDoc
  | .corrupt => emptyDoc
  | .valid d => withDefaults d

/-- The top-level keys the core reads from the document. -/
def coreKeys : List String :=
  ["servers", "accounts", "projects", "status_cache", "cloud_cache",
   "projects_cache", "last_update", "cloud_last_update",
   "projects_last_update", "sales"]

/-- The spec's reading of "most recently appended entry across all allocation
buckets, ties broken by array-append order": scanning the buckets from the
last one backwards, the first non-empty bucket contributes its final entry's
`floating_ip`. -/
def specLastAllocated (allocated : List (String × List AllocEntry)) : Option String :=
  match allocated.reverse.find? (fun b => !b.2.isEmpty) with
  | some b =>
    match b.2.getLast? with
    | some e => e.floating_ip
    | none => none
  | none => none

/-- Remap every allocation entry's timestamp data, leaving addresses alone. -/
def remapTimes (f : Option Nat → Option Nat) (st : StateFile) : StateFile :=
  { st with
    allocated := st.allocated.map
      (fun b => (b.1, b.2.map (fun e => { e with created_at := f e.created_at }))) }

/-! ### Cloud identity & inventory client (openstack.py) -/

/-- How a cloud HTTP call fails: an HTTP rejection carrying the status code
(`httpx.HTTPStatusError`) or any other exception with its text. -/
inductive CloudFailure where
  | http : Nat → CloudFailure
  | exc : String → CloudFailure
deriving Repr, DecidableEq

/-- Error text produced by the handlers at openstack.py lines 154–158:
`f"HTTP {status}"` for an HTTP rejection, else `str(e)[:100]`. -/
def failText : CloudFailure → String
  | .http n => "HTTP " ++ toString n
  | .exc m => pyTake m 100

/-- A Neutron floating-IP object, restricted to the fields read. -/
structure Fip where
  floating_ip_address : Option String
  id : Option String
  status : Option String
  fixed_ip_address : Option String
  port_id : Option String
deriving Repr, DecidableEq

/-- A Nova server object as read: display name and, per network, the `addr`
values of its interface address list. -/
structure Instance where
  name : Option String
  addresses : List (String × List (Option String))
deriving Repr, DecidableEq

/-- The per-address record built at openstack.py lines 131–152. -/
structure IpInfo where
  ip : Option String
  id : Option String
  status : Option String
  fixed_ip : Option String
  port_id : Option String
  attached : Bool
  server_name : Option String
deriving Repr, DecidableEq

/-- openstack.py lines 142–150: scan all instances and all their interface
addresses for the floating IP's fixed address; each matching instance
overwrites `server_name` (the inner `break` leaves the outer loops running).
Runs only when `fixed_ip` is truthy and the instance list is non-empty. -/
def resolveServerName (servers : List Instance) (fixed_ip : Option String) :
    Option String :=
  if truthyStr fixed_ip && !servers.isEmpty then
    servers.foldl
      (fun acc srv =>
        if srv.addresses.any (fun na => na.2.any (fun a => a == fixed_ip)) then srv.name
        else acc)
      none
  else none

/-- openstack.py lines 131–140: one `ip_info` dictionary. -/
def mkIpInfo (servers : List Instance) (fip : Fip) : IpInfo :=
  { ip := fip.floating_ip_address
    id := fip.id
    status := fip.status
    fixed_ip := fip.fixed_ip_address
    port_id := fip.port_id
    attached := truthyStr fip.port_id
    server_name := resolveServerName servers fip.fixed_ip_address }

/-- Oracle for one `get_project_floating_ips` call: the outcome of
`openstack_auth` (token, endpoint catalog entry per service type, resolved
project name), of the floating-IP GET, and of the server-list GET. -/
structure CloudEnv where
  auth : Except CloudFailure (String × List (String × String) × String)
  fips : Except CloudFailure (List Fip)
  instances : Except CloudFailure (List Instance)

/-- A cloud credential / project record (`projects` entries of the document,
optionally enriched with the cached `os_project_name`). -/
structure ProjectRec where
  name : String
  username : String
  password : String
  project_id : String
  auth_url : Option String
  os_project_name : Option String
deriving Repr, DecidableEq

/-- The result dictionary of `get_project_floating_ips`
(openstack.py lines 94–100). -/
structure InventoryRecord where
  name : String
  username : String
  os_project_name : Option String
  ips : List IpInfo
  error : Option String
deriving Repr, DecidableEq

/-- Embedding of `get_project_floating_ips` (openstack.py lines 84–161):
authenticate, check the network endpoint, list floating IPs, best-effort
list instances (its own failure collapses to an empty instance list), and
build the per-address records.  Any failure of the first three steps lands
in the outer handlers, which set `error` on the record built so far. -/
def get_project_floating_ips (proj : ProjectRec) (env : CloudEnv) : InventoryRecord :=
  let base : InventoryRecord :=
    { name := proj.name, username := proj.username, os_project_name := none,
      ips := [], error := none }
  match env.auth with
  | .error f => { base with error := some (failText f) }
  | .ok (_, endpoints, os_pname) =>
    let base := { base with os_project_name := some os_pname }
    if truthyStr (pyDictGet endpoints "network") then
      match env.fips with
      | .error f => { base with error := some (failText f) }
      | .ok fips =>
        let servers :=
          if truthyStr (pyDictGet endpoints "compute") then
            match env.instances with
            | .ok s => s
            | .error _ => []
          else []
        { base with ips := fips.map (mkIpInfo servers) }
    else { base with error := some "No network endpoint" }

/-! ### CLI-based inventory poll (ssh.py `get_floating_ips_via_cli`,
lines 183–257) -/

/-- One element of the `openstack floating ip list -f json` output. -/
structure CliIp where
  floatingIPAddr : Option String
  id : Option String
  status : Option String
  fixedIPAddr : Option String
  port : Option String
deriving Repr, DecidableEq

/-- The per-address dictionary built at ssh.py lines 236–243. -/
structure CliIpInfo where
  ip : Option String
  id : Option String
  status : Option String
  fixed_ip : Option String
  port_id : Option String
  attached : Bool
deriving Repr, DecidableEq

/-- ssh.py lines 236–243; note `attached` is
`bool(ip.get("Port") or ip.get("Fixed IP Address"))`. -/
def mkCliIpInfo (e : CliIp) : CliIpInfo :=
  { ip := e.floatingIPAddr
    id := e.id
    status := e.status
    fixed_ip := e.fixedIPAddr
    port_id := e.port
    attached := truthyStr e.port || truthyStr e.fixedIPAddr }

/-- The remote CLI command's stdout as the embedding sees it: blank after
stripping, JSON that fails to decode (with the decoder's message), or a
parsed address list. -/
inductive CliOut where
  | blank : CliOut
  | malformed : String → CliOut
  | parsed : List CliIp → CliOut
deriving Repr

/-- Oracle for one `get_floating_ips_via_cli` call. -/
structure CliEnv where
  connect : Except String Unit
  fipCmd : Except String (Nat × CliOut × String)
  envGrep : Except String (Nat × String × String)

/-- The result dictionary of `get_floating_ips_via_cli`
(ssh.py lines 193–198). -/
structure CliResult where
  ips : List CliIpInfo
  error : Option String
  account : Option String
  project : Option String
deriving Repr, DecidableEq

/-- Embedding of `get_floating_ips_via_cli`: run the CLI command, read the
`.env` identity, then — only when the command exited 0 with non-blank
output — parse its JSON; otherwise record the SSH stderr only when it is
non-empty (`elif err:`). -/
def get_floating_ips_via_cli (env : CliEnv) : CliResult :=
  match env.connect with
  | .error e => { ips := [], error := some e, account := none, project := none }
  | .ok _ =>
    match env.fipCmd with
    | .error e => { ips := [], error := some e, account := none, project := none }
    | .ok (code, out, err) =>
      match env.envGrep with
      | .error e => { ips := [], error := some e, account := none, project := none }
      | .ok (c2, out2, _) =>
        let ap := parseEnvGrep c2 out2
        let base : CliResult :=
          { ips := [], error := none, account := ap.1, project := ap.2 }
        if code == 0 then
          match out with
          | .blank =>
            if err.toList.isEmpty then base
            else { base with error := some (pyTake err 200) }
          | .malformed m => { base with error := some ("JSON parse error: " ++ m) }
          | .parsed ips => { base with ips := ips.map mkCliIpInfo }
        else
          if err.toList.isEmpty then base
          else { base with error := some (pyTake err 200) }

/-! ### Dashboard merged view (main.py `dashboard`, lines 97–150) -/

/-- A configured script (agent) record, as read by the merge. -/
structure ScriptRec where
  id : Nat
  name : String
  project_name : Option String
deriving Repr, DecidableEq

/-- A configured server (host) record with its scripts. -/
structure ServerRec where
  id : Nat
  name : String
  scripts : List ScriptRec
deriving Repr, DecidableEq

/-- The merged per-row fields the dashboard builds (main.py lines 118–126). -/
structure DashRow where
  floating_ips : List CliIpInfo
  cloud_error : Option String
  account : Option String
  project : Option String
  running : Bool
deriving Repr, DecidableEq

/-- main.py lines 118–126: `combined = {**cached}` plus the explicit
overrides; `cached`/`cloud` are the cache lookups, `{}` when the key is
absent. -/
def combineRow (cached : Option CacheEntry) (cloud : Option CliResult) : DashRow :=
  { floating_ips := match cloud with | some c => c.ips | none => []
    cloud_error := match cloud with | some c => c.error | none => none
    account :=
      pyOr (match cached with | some c => c.account | none => none)
        (match cloud with | some c => c.account | none => none)
    project :=
      pyOr (match cached with | some c => c.project | none => none)
        (match cloud with | some c => c.project | none => none)
    running := match cached with | some c => c.running | none => false }

/-- main.py lines 114–136: one merged row per configured (server, script),
both caches looked up under the same `f"{server_id}-{script_id}"` key. -/
def dashboardRows (servers : List ServerRec)
    (status_cache : List (String × CacheEntry))
    (cloud_cache : List (String × CliResult)) : List DashRow :=
  servers.flatMap (fun srv =>
    srv.scripts.map (fun s =>
      combineRow (pyDictGet status_cache (cacheKey srv.id s.id))
        (pyDictGet cloud_cache (cacheKey srv.id s.id))))

/-- The cloud record selected by project label, as claim C5's wording
prescribes: the cloud-cache record whose observed project label equals the
given label. -/
def cloudRecordByLabel (cloud_cache : List (String × CliResult))
    (label : Option String) : Option CliResult :=
  (cloud_cache.find? (fun p => p.2.project == label)).map (fun p => p.2)

/-- Claim C5 as stated: in the merged read view the floating-address list
comes from whichever cloud record matches the status record's observed
project label, falling back to the script's configured label when the
observed one is absent. -/
def mergedViewLabelSelectionClaim : Prop :=
  ∀ (servers : List ServerRec) (status_cache : List (String × CacheEntry))
    (cloud_cache : List (String × CliResult)) (srv : ServerRec) (s : ScriptRec),
    srv ∈ servers → s ∈ srv.scripts →
    (combineRow (pyDictGet status_cache (cacheKey srv.id s.id))
        (pyDictGet cloud_cache (cacheKey srv.id s.id))).floating_ips =
      (match cloudRecordByLabel cloud_cache
          (let observed :=
            match pyDictGet status_cache (cacheKey srv.id s.id) with
            | some c => c.project
            | none => none
           if observed.isSome then observed else s.project_name) with
       | some c => c.ips
       | none => [])

/-! ### Projects page grouping (main.py `projects_page`, lines 676–806) -/

/-- The per-script dictionary appended at main.py lines 701–711. -/
structure ScriptInfo where
  server_id : Nat
  script_id : Nat
  server_name : String
  script_name : String
  running : Bool
  cycles : Nat
  success : Nat
  last_ip : Option String
  error : Option String
deriving Repr, DecidableEq

/-- main.py lines 698–700: parse one side of the `"sid-scid"` cache key
(the keys written by the refresh are always numeric). -/
def parseCacheKeyPart (key : String) (i : Nat) : Nat :=
  let parts := pySplitChar (Char.ofNat 45) key
  if parts.length == 2 then ((parts.getD i "").toNat?).getD 0 else 0

/-- The script entry built from one status-cache item. -/
def toScriptInfo (key : String) (c : CacheEntry) : ScriptInfo :=
  { server_id := parseCacheKeyPart key 0
    script_id := parseCacheKeyPart key 1
    server_name := c.server_name
    script_name := c.script_name
    running := c.running
    cycles := c.cycles
    success := c.success
    last_ip := c.last_ip
    error := c.error }

/-- Python `dict-of-lists` append: extend the bucket in place when the key
exists, else append a new singleton bucket. -/
def mapAppend (m : List (String × List ScriptInfo)) (k : String) (v : ScriptInfo) :
    List (String × List ScriptInfo) :=
  if hasKey m k then m.map (fun p => if p.1 == k then (p.1, p.2 ++ [v]) else p)
  else m ++ [(k, [v])]

/-- main.py lines 691–711: bucket every status-cache entry with a truthy
observed project label under that label. -/
def projectScriptsMap (status_cache : List (String × CacheEntry)) :
    List (String × List ScriptInfo) :=
  status_cache.foldl
    (fun m p =>
      match p.2.project with
      | some pn =>
        if pn.toList.isEmpty then m else mapAppend m pn (toScriptInfo p.1 p.2)
      | none => m)
    []

/-- main.py line 744: `cached.get("os_project_name") or ""` — the label the
projects page looks up first. -/
def osNameOf (cachedOsName : Option String) : String :=
  match pyOr cachedOsName (some "") with
  | some s => s
  | none => ""

/-- main.py lines 742–748: look the project's scripts up by its
cloud-observed name (`os_project_name or ""`), falling back to the
configured name whenever that lookup yields no scripts. -/
def scriptsForProject (status_cache : List (String × CacheEntry))
    (cachedOsName : Option String) (confName : String) : List ScriptInfo :=
  let m := projectScriptsMap status_cache
  let os_pname : String :=
    match pyOr cachedOsName (some "") with
    | some s => s
    | none => ""
  let s1 := (pyDictGet m os_pname).getD []
  if s1.isEmpty then (pyDictGet m confName).getD [] else s1

/-! ### Rebind (ssh.py `change_script_project`, lines 260–348) -/

/-- The key of a non-comment `.env` line: the text before the first `=`,
provided the (stripped) line contains one (ssh.py line 314). -/
def envLineKey (ls : String) : Option String :=
  if (pySplitChar (Char.ofNat 61) ls).length ≥ 2 then
    some ((pySplitChar (Char.ofNat 61) ls).headD "")
  else none

/-- The replacement line `f'{key}="{value}"'` (ssh.py lines 316 and 324). -/
def mkEnvLine (k v : String) : String :=
  k ++ "=\"" ++ v ++ "\""

/-- The `updates` dictionary of ssh.py lines 296–305, in insertion order.
`OS_PROJECT_NAME` is `project.get("os_project_name") or project["name"]`;
`OS_AUTH_URL` is included only when `auth_url` is truthy. -/
def buildUpdates (project : ProjectRec) : List (String × String) :=
  [("OS_USERNAME", project.username),
   ("OS_PASSWORD", project.password),
   ("OS_PROJECT_ID", project.project_id),
   ("OS_PROJECT_NAME",
     match pyOr project.os_project_name (some project.name) with
     | some s => s
     | none => project.name)] ++
  (match project.auth_url with
   | some u => if u.toList.isEmpty then [] else [("OS_AUTH_URL", u)]
   | none => [])

/-- One iteration of the line loop (ssh.py lines 307–319), carried over the
pair (new lines so far, keys updated so far). -/
def patchEnvStep (updates : List (String × String))
    (acc : List String × List String) (line : String) :
    List String × List String :=
  let ls := pyStrip line
  if ls.toList.isEmpty || pyStartsWith ls "#" then (acc.1 ++ [line], acc.2)
  else
    match envLineKey ls with
    | some k =>
      match updates.find? (fun p => p.1 == k) with
      | some p => (acc.1 ++ [mkEnvLine k p.2], acc.2 ++ [k])
      | none => (acc.1 ++ [line], acc.2)
    | none => (acc.1 ++ [line], acc.2)

/-- ssh.py lines 307–324: rewrite every line, then append the recognized
keys that were never hit, in `updates` order. -/
def patchEnvLines (updates : List (String × String)) (lines : List String) :
    List String :=
  let res := lines.foldl (patchEnvStep updates) ([], [])
  res.1 ++
    (updates.filter (fun p => !(res.2.contains p.1))).map
      (fun p => mkEnvLine p.1 p.2)

/-- The new `.env` content (split on newlines, patch, re-join). -/
def change_env_content (updates : List (String × String)) (content : String) :
    String :=
  String.intercalate "\n" (patchEnvLines updates (pySplitChar (Char.ofNat 10) content))

/-- What `patchEnvStep` does to one line, as a per-line function. -/
def patchOneLine (updates : List (String × String)) (line : String) : String :=
  let ls := pyStrip line
  if ls.toList.isEmpty || pyStartsWith ls "#" then line
  else
    match envLineKey ls with
    | some k =>
      match updates.find? (fun p => p.1 == k) with
      | some p => mkEnvLine k p.2
      | none => line
    | none => line

/-- The recognized key one line hits, if any. -/
def keyHit (updates : List (String × String)) (line : String) : Option String :=
  let ls := pyStrip line
  if ls.toList.isEmpty || pyStartsWith ls "#" then none
  else
    match envLineKey ls with
    | some k =>
      if (updates.find? (fun p => p.1 == k)).isSome then some k else none
    | none => none

/-- The remote steps `change_script_project` can attempt, in order. -/
inductive RebindStep where
  | readEnv : RebindStep
  | writeEnv : RebindStep
  | restartSvc : RebindStep
deriving Repr, DecidableEq

/-- Oracle for one `change_script_project` call. -/
structure RebindEnv where
  connect : Except String Unit
  readEnv : Except String (Nat × String × String)
  writeEnv : Except String (Nat × String × String)
  restartSvc : Except String (Nat × String × String)

/-- Observable outcome of a rebind: the `(success, message)` pair, the remote
steps that were attempted, and the `.env` content the remote write put in
place (when the write command ran and exited 0). -/
structure RebindOutcome where
  ok : Bool
  message : String
  steps : List RebindStep
  written : Option String
deriving Repr, DecidableEq

/-- Embedding of `change_script_project`: read the current `.env`, patch the
recognized identity keys, write the file back, restart the service; each
failing step (raise or nonzero exit) reports that step's message and stops. -/
def change_script_project (project : ProjectRec) (env : RebindEnv) :
    RebindOutcome :=
  match env.connect with
  | .error e => ⟨false, e, [], none⟩
  | .ok _ =>
    match env.readEnv with
    | .error e => ⟨false, e, [.readEnv], none⟩
    | .ok (code, current_env, err) =>
      if code != 0 then
        ⟨false, "Failed to read .env: " ++ err, [.readEnv], none⟩
      else
        let new_env := change_env_content (buildUpdates project) current_env
        match env.writeEnv with
        | .error e => ⟨false, e, [.readEnv, .writeEnv], none⟩
        | .ok (wcode, _, werr) =>
          if wcode != 0 then
            ⟨false, "Failed to write .env: " ++ werr, [.readEnv, .writeEnv], none⟩
          else
            match env.restartSvc with
            | .error e =>
              ⟨false, e, [.readEnv, .writeEnv, .restartSvc], some new_env⟩
            | .ok (rcode, _, rerr) =>
              if rcode != 0 then
                ⟨false, "Failed to restart service: " ++ rerr,
                  [.readEnv, .writeEnv, .restartSvc], some new_env⟩
              else
                ⟨true, "Проект изменён на " ++ project.name ++ ", скрипт перезапущен",
                  [.readEnv, .writeEnv, .restartSvc], some new_env⟩

/-- Claim C4 as stated: in every inventory result (API-based or CLI-based
alike), an address is flagged attached exactly when its port/binding
identifier is non-empty. -/
def attachedIffPortClaim : Prop :=
  (∀ (proj : ProjectRec) (env : CloudEnv),
    ∀ info ∈ (get_project_floating_ips proj env).ips,
      info.attached = truthyStr info.port_id) ∧
  (∀ env : CliEnv,
    ∀ rec ∈ (get_floating_ips_via_cli env).ips,
      rec.attached = truthyStr rec.port_id)

/-- All non-error fields of a status record at their defaults from
ssh.py lines 71–80. -/
def onlyErrorPopulated (r : StatusRecord) : Prop :=
  r.running = false ∧ r.cycles = 0 ∧ r.success = 0 ∧ r.last_ip = none ∧
  r.account = none ∧ r.project = none ∧ r.state = none

/-- Claim C3 as stated: whenever any transport-level failure occurs during a
status read, the returned record has only the error field populated and every
other field at its default. -/
def statusFailureOnlyErrorClaim : Prop :=
  ∀ env : SshEnv,
    ((get_script_status env).error).isSome = true →
    onlyErrorPopulated (get_script_status env)

/-! ## Supporting lemmas -/

theorem applyStateStep_error (r : StatusRecord) (c : Nat) (content : StateContent) :
    (applyStateStep r c content).error = r.error := by
  unfold applyStateStep
  split
  · cases content <;> rfl
  · rfl

theorem applyStateStep_running (r : StatusRecord) (c : Nat) (content : StateContent) :
    (applyStateStep r c content).running = r.running := by
  unfold applyStateStep
  split
  · cases content <;> rfl
  · rfl

theorem lastIpOfAllocated_spec (l : List (String × List AllocEntry))
    (acc : Option String) :
    l.foldl
      (fun acc b =>
        match b.2.getLast? with
        | some e => e.floating_ip
        | none => acc)
      acc =
    (match l.reverse.find? (fun b => !b.2.isEmpty) with
     | some b =>
       match b.2.getLast? with
       | some e => e.floating_ip
       | none => none
     | none => acc) := by
  induction l generalizing acc with
  | nil => rfl
  | cons b t ih =>
    simp only [List.foldl_cons, List.reverse_cons, List.find?_append]
    rw [ih]
    cases hf : t.reverse.find? (fun b => !b.2.isEmpty) with
    | some b' => rfl
    | none =>
      cases hb : b.2 with
      | nil => simp [List.find?, hb]
      | cons x xs =>
        have hne : (x :: xs).getLast? = some ((x :: xs).getLast (by simp)) :=
          List.getLast?_eq_getLast _ _
        simp [List.find?, hb, hne]

theorem lastIpOfAllocated_eq_spec (allocated : List (String × List AllocEntry)) :
    lastIpOfAllocated allocated = specLastAllocated allocated := by
  unfold lastIpOfAllocated specLastAllocated
  rw [lastIpOfAllocated_spec]

/-- A status poll's record carries an error exactly when one of its remote
steps raised. -/
theorem status_error_iff_failed (env : SshEnv) :
    ((get_script_status env).error).isSome = sshFailed env := by
  obtain ⟨c, ia, eg, cs⟩ := env
  cases c <;> cases ia <;> cases eg <;> cases cs <;>
    simp [get_script_status, sshFailed, Except.isOk, Except.toBool,
      applyStateStep_error]

theorem beq_str_comm (a b : String) : (a == b) = (b == a) := by
  by_cases h : a = b
  · subst h; rfl
  · have h1 : (a == b) = false := by simpa using h
    have h2 : (b == a) = false := by simpa using (Ne.symm h)
    rw [h1, h2]

theorem pyDictGet_eq_none_of_hasKey_false {V : Type} (m : List (String × V))
    (k : String) (h : hasKey m k = false) : pyDictGet m k = none := by
  unfold pyDictGet
  have : m.find? (fun p => p.1 == k) = none := by
    rw [List.find?_eq_none]
    intro p hp hpk
    have : hasKey m k = true := List.any_eq_true.2 ⟨p, hp, hpk⟩
    rw [this] at h
    exact Bool.noConfusion h
  rw [this]
  rfl

theorem pyDictGet_isSome_of_hasKey {V : Type} (m : List (String × V))
    (k : String) (h : hasKey m k = true) : (pyDictGet m k).isSome = true := by
  unfold hasKey at h
  rcases List.any_eq_true.1 h with ⟨p, hp, hpk⟩
  unfold pyDictGet
  have : (m.find? (fun p => p.1 == k)).isSome = true :=
    List.find?_isSome.2 ⟨p, hp, hpk⟩
  rcases Option.isSome_iff_exists.1 this with ⟨x, hx⟩
  rw [hx]
  rfl

theorem pyDictGet_setdefault_self {V : Type} (m : List (String × V))
    (k : String) (v : V) :
    pyDictGet (setdefault m k v) k = some ((pyDictGet m k).getD v) := by
  unfold setdefault
  split
  · rename_i h
    rcases Option.isSome_iff_exists.1 (pyDictGet_isSome_of_hasKey m k h) with ⟨x, hx⟩
    rw [hx]
    rfl
  · rename_i h
    have hn : pyDictGet m k = none :=
      pyDictGet_eq_none_of_hasKey_false m k (by simpa using h)
    have hfn : m.find? (fun p => p.1 == k) = none := by
      unfold pyDictGet at hn
      exact Option.map_eq_none.1 hn
    unfold pyDictGet
    rw [List.find?_append, hfn]
    simp [List.find?]

theorem pyDictGet_setdefault_ne {V : Type} (m : List (String × V))
    (k k' : String) (v : V) (h : (k == k') = false) :
    pyDictGet (setdefault m k' v) k = pyDictGet m k := by
  unfold setdefault
  split
  · rfl
  · unfold pyDictGet
    rw [List.find?_append]
    cases hf : m.find? (fun p => p.1 == k) with
    | some x => rfl
    | none =>
      have : (k' == k) = false := by rw [beq_str_comm]; exact h
      simp [List.find?, this]

theorem pyDictGet_setdefault_of_hasKey {V : Type} (m : List (String × V))
    (k k' : String) (v : V) (h : hasKey m k = true) :
    pyDictGet (setdefault m k' v) k = pyDictGet m k := by
  unfold setdefault
  split
  · rfl
  · unfold pyDictGet
    rw [List.find?_append]
    unfold hasKey at h
    rcases List.any_eq_true.1 h with ⟨p, hp, hpk⟩
    have hs : (m.find? (fun p => p.1 == k)).isSome = true :=
      List.find?_isSome.2 ⟨p, hp, hpk⟩
    rcases Option.isSome_iff_exists.1 hs with ⟨x, hx⟩
    rw [hx]
    rfl

theorem hasKey_setdefault_mono {V : Type} (m : List (String × V))
    (k k' : String) (v : V) (h : hasKey m k = true) :
    hasKey (setdefault m k' v) k = true := by
  unfold setdefault
  split
  · exact h
  · unfold hasKey at h ⊢
    rw [List.any_append, h]
    rfl

theorem hasKey_setdefault {V : Type} (m : List (String × V))
    (k k' : String) (v : V) :
    hasKey (setdefault m k' v) k = (hasKey m k || (k == k')) := by
  unfold setdefault
  split
  · rename_i h
    by_cases hk : k = k'
    · subst hk
      simp [h]
    · have : (k == k') = false := by simpa using hk
      simp [this]
  · unfold hasKey
    rw [List.any_append]
    have : (#[].toList ++ [(k', v)]).any (fun p => p.1 == k) = (k' == k) := by
      simp [List.any]
    simp [List.any, beq_str_comm k' k]

theorem mem_dictInsert {V : Type} (m : List (String × V)) (k : String) (v : V)
    (p : String × V) (hp : p ∈ dictInsert m k v) : p ∈ m ∨ p = (k, v) := by
  unfold dictInsert at hp
  split at hp
  · rcases List.mem_map.1 hp with ⟨q, hqm, hq⟩
    by_cases hqk : (q.1 == k) = true
    · right
      rw [if_pos hqk] at hq
      exact hq.symm
    · left
      rw [if_neg hqk] at hq
      exact hq ▸ hqm
  · rcases List.mem_append.1 hp with h | h
    · exact Or.inl h
    · right
      simpa using h

theorem mem_buildStatusCache_aux (results : List CacheEntry)
    (m : List (String × CacheEntry)) (p : String × CacheEntry)
    (hp : p ∈ results.foldl
      (fun m r => dictInsert m (cacheKey r.server_id r.script_id) r) m) :
    p ∈ m ∨ ∃ r ∈ results, p = (cacheKey r.server_id r.script_id, r) := by
  induction results generalizing m with
  | nil => exact Or.inl hp
  | cons r t ih =>
    rcases ih _ hp with h | ⟨r', hr', hpr⟩
    · rcases mem_dictInsert _ _ _ _ h with h' | h'
      · exact Or.inl h'
      · exact Or.inr ⟨r, List.mem_cons_self r t, h'⟩
    · exact Or.inr ⟨r', List.mem_cons_of_mem r hr', hpr⟩

theorem mem_buildStatusCache (results : List CacheEntry) (p : String × CacheEntry)
    (hp : p ∈ buildStatusCache results) :
    ∃ r ∈ results, p = (cacheKey r.server_id r.script_id, r) := by
  rcases mem_buildStatusCache_aux results [] p hp with h | h
  · exact absurd h (List.not_mem_nil p)
  · exact h

/-- A `setdefault` fold leaves present keys alone and otherwise takes the
first default carrying the key. -/
theorem pyDictGet_foldl_setdefault (defs : List (String × JVal))
    (d : List (String × JVal)) (k : String) :
    pyDictGet (defs.foldl (fun m p => setdefault m p.1 p.2) d) k =
      (match pyDictGet d k with
       | some v => some v
       | none => pyDictGet defs k) := by
  induction defs generalizing d with
  | nil =>
    simp only [List.foldl_nil]
    cases hx : pyDictGet d k with
    | some v => rfl
    | none => simp [pyDictGet]
  | cons p t ih =>
    simp only [List.foldl_cons]
    rw [ih]
    by_cases hd : hasKey d k = true
    · rcases Option.isSome_iff_exists.1 (pyDictGet_isSome_of_hasKey d k hd) with ⟨x, hx⟩
      rw [pyDictGet_setdefault_of_hasKey _ _ _ _ hd, hx]
    · have hn : pyDictGet d k = none :=
        pyDictGet_eq_none_of_hasKey_false d k (by simpa using hd)
      by_cases hk : (k == p.1) = true
      · have hkeq : k = p.1 := by simpa using hk
        subst hkeq
        rw [pyDictGet_setdefault_self, hn]
        simp [pyDictGet, List.find?]
      · rw [pyDictGet_setdefault_ne _ _ _ _ (by simpa using hk), hn]
        have hpk : (p.1 == k) = false := by
          rw [beq_str_comm]
          simpa using hk
        simp [pyDictGet, List.find?, hpk]

theorem hasKey_foldl_setdefault (defs : List (String × JVal))
    (d : List (String × JVal)) (k : String) :
    hasKey (defs.foldl (fun m p => setdefault m p.1 p.2) d) k =
      (hasKey d k || hasKey defs k) := by
  induction defs generalizing d with
  | nil => simp [hasKey]
  | cons p t ih =>
    simp only [List.foldl_cons]
    rw [ih, hasKey_setdefault]
    have : hasKey (p :: t) k = ((p.1 == k) || hasKey t k) := by
      simp [hasKey]
    rw [this, beq_str_comm p.1 k, Bool.or_assoc]

/-- `withDefaults` is the `setdefault` fold of exactly the default pairs. -/
theorem withDefaults_eq_foldl (d : List (String × JVal)) :
    withDefaults d = emptyDoc.foldl (fun m p => setdefault m p.1 p.2) d := by
  show withDefaults d =
    List.foldl (fun m p => setdefault m p.1 p.2) d emptyDoc
  simp only [emptyDoc, List.foldl_cons, List.foldl_nil]
  rfl

/-! ## Claims -/

/-- **C1.** For every poll batch of N (server, script) targets, with any mix
of per-target success and failure, the status refresh returns exactly N
result records — each failed target yielding an error-carrying record of the
same shape — and reports `updated = N`; each result is its own target's
fetch, so no target's failure aborts or omits the others. -/
theorem refresh_one_result_per_target (targets : List Target) :
    (api_refresh_results targets).length = targets.length ∧
    api_refresh_updated targets = targets.length ∧
    api_refresh_results targets = targets.map fetch_status ∧
    (∀ t ∈ targets, fetch_status t ∈ api_refresh_results targets) ∧
    (∀ t ∈ targets, sshFailed t.env = true →
      ((fetch_status t).error).isSome = true) := by
  refine ⟨by simp [api_refresh_results], by simp [api_refresh_updated, api_refresh_results],
    rfl, ?_, ?_⟩
  · intro t ht
    exact List.mem_map_of_mem fetch_status ht
  · intro t _ hfail
    have := status_error_iff_failed t.env
    simp only [fetch_status]
    rw [this, hfail]

/-- Concrete instance of C1: a two-target batch, one target with an
unreachable host, still yields two results, `updated = 2`, and the failed
target's record carries the error. -/
theorem refresh_one_result_per_target_witness :
    api_refresh_updated
      [⟨1, 1, "s1", "a", ⟨.error "connect timeout", .ok (0, "", ""),
         .ok (1, "", ""), .ok (1, .blank)⟩⟩,
       ⟨1, 2, "s1", "b", ⟨.ok (), .ok (0, "active", ""),
         .ok (1, "", ""), .ok (1, .blank)⟩⟩] = 2 ∧
    ((fetch_status ⟨1, 1, "s1", "a", ⟨.error "connect timeout", .ok (0, "", ""),
         .ok (1, "", ""), .ok (1, .blank)⟩⟩).error).isSome = true := by
  constructor
  · exact (refresh_one_result_per_target _).2.1.trans (by decide)
  · exact (refresh_one_result_per_target
      [⟨1, 1, "s1", "a", ⟨.error "connect timeout", .ok (0, "", ""),
         .ok (1, "", ""), .ok (1, .blank)⟩⟩]).2.2.2.2 _ (by simp) (by decide)

/-- **C3, counterexample.** The claim fails: when the service-active check
has already succeeded (reporting "active") and a later remote step raises,
the record carries both `running = true` and the error. -/
theorem status_failure_only_error_counterexample : ¬ statusFailureOnlyErrorClaim := by
  intro h
  have hc := h ⟨.ok (), .ok (0, "active", ""), .error "exec timeout", .ok (0, .blank)⟩
    (by decide)
  exact absurd hc.1 (by decide)

/-- **C3, amended.** A transport-level failure populates the error field and
leaves at its default every field whose populating step had not yet run, while
fields set by steps completed earlier in the same poll keep their fresh
values: a connect or service-check failure leaves every other field at its
default; a failure reading the credential file keeps only the fresh `running`
flag; a failure reading the state file keeps the fresh `running`, `account`
and `project` values and leaves all state-derived counters at their defaults.
Nothing is ever carried over from a previous poll: the record is a function
of this poll's remote outcomes alone. -/
theorem status_failure_defaults_amended :
    (∀ (e : String) ia eg cs,
      get_script_status ⟨.error e, ia, eg, cs⟩ = { error := some e }) ∧
    (∀ (e : String) eg cs,
      get_script_status ⟨.ok (), .error e, eg, cs⟩ = { error := some e }) ∧
    (∀ (e : String) ca outA errA cs,
      get_script_status ⟨.ok (), .ok (ca, outA, errA), .error e, cs⟩ =
        { running := pyStrip outA == "active", error := some e }) ∧
    (∀ (e : String) ca outA errA cg outG errG,
      get_script_status ⟨.ok (), .ok (ca, outA, errA), .ok (cg, outG, errG), .error e⟩ =
        { running := pyStrip outA == "active",
          account := (parseEnvGrep cg outG).1,
          project := (parseEnvGrep cg outG).2,
          error := some e }) :=
  ⟨fun _ _ _ _ => rfl, fun _ _ _ => rfl, fun _ _ _ _ _ => rfl,
   fun _ _ _ _ _ _ _ => rfl⟩

/-- **C6.** For every parseable agent state file, the status read extracts
`meta.cycle_no` as the cycle count (0 when absent), the sum of the `success`
counters over all `meta.stats` buckets as total successes, and — positionally,
with no timestamp comparison — the final entry of the last non-empty
allocation bucket as the last-allocated address (the most recently appended
entry under array-append order, final entry winning): remapping every entry's
timestamp data never changes any extracted value. -/
theorem state_extraction_correct (ca cg : Nat) (outA errA outG errG : String)
    (st : StateFile) (f : Option Nat → Option Nat) :
    (get_script_status
        ⟨.ok (), .ok (ca, outA, errA), .ok (cg, outG, errG),
         .ok (0, .parsed st)⟩).cycles =
      (st.meta.bind StateMeta.cycle_no).getD 0 ∧
    (get_script_status
        ⟨.ok (), .ok (ca, outA, errA), .ok (cg, outG, errG),
         .ok (0, .parsed st)⟩).success =
      (st.meta.map (fun m => (m.stats.map (fun b => b.2.getD 0)).sum)).getD 0 ∧
    (get_script_status
        ⟨.ok (), .ok (ca, outA, errA), .ok (cg, outG, errG),
         .ok (0, .parsed st)⟩).last_ip = specLastAllocated st.allocated ∧
    (get_script_status
        ⟨.ok (), .ok (ca, outA, errA), .ok (cg, outG, errG),
         .ok (0, .parsed (remapTimes f st))⟩).cycles =
      (get_script_status
        ⟨.ok (), .ok (ca, outA, errA), .ok (cg, outG, errG),
         .ok (0, .parsed st)⟩).cycles ∧
    (get_script_status
        ⟨.ok (), .ok (ca, outA, errA), .ok (cg, outG, errG),
         .ok (0, .parsed (remapTimes f st))⟩).success =
      (get_script_status
        ⟨.ok (), .ok (ca, outA, errA), .ok (cg, outG, errG),
         .ok (0, .parsed st)⟩).success ∧
    (get_script_status
        ⟨.ok (), .ok (ca, outA, errA), .ok (cg, outG, errG),
         .ok (0, .parsed (remapTimes f st))⟩).last_ip =
      (get_script_status
        ⟨.ok (), .ok (ca, outA, errA), .ok (cg, outG, errG),
         .ok (0, .parsed st)⟩).last_ip := by
  have hcy : ∀ st' : StateFile, stateCycles st' = (st'.meta.bind StateMeta.cycle_no).getD 0 := by
    intro st'
    unfold stateCycles
    cases st'.meta <;> rfl
  have hsu : ∀ st' : StateFile,
      stateSuccess st' = (st'.meta.map (fun m => (m.stats.map (fun b => b.2.getD 0)).sum)).getD 0 := by
    intro st'
    unfold stateSuccess
    cases st'.meta <;> rfl
  have hrun : ∀ st' : StateFile,
      get_script_status
        ⟨.ok (), .ok (ca, outA, errA), .ok (cg, outG, errG), .ok (0, .parsed st')⟩ =
      { running := pyStrip outA == "active",
        account := (parseEnvGrep cg outG).1,
        project := (parseEnvGrep cg outG).2,
        state := some st',
        cycles := stateCycles st',
        success := stateSuccess st',
        last_ip := lastIpOfAllocated st'.allocated } := fun _ => rfl
  have hmapIp : lastIpOfAllocated (remapTimes f st).allocated =
      lastIpOfAllocated st.allocated := by
    rw [lastIpOfAllocated_eq_spec, lastIpOfAllocated_eq_spec]
    unfold specLastAllocated remapTimes
    simp only [← List.map_reverse]
    rw [List.find?_map]
    have hpred : ((fun b : String × List AllocEntry => !b.2.isEmpty) ∘
        (fun b : String × List AllocEntry =>
          (b.1, b.2.map (fun e => { e with created_at := f e.created_at })))) =
        (fun b : String × List AllocEntry => !b.2.isEmpty) := by
      funext b
      obtain ⟨k, es⟩ := b
      cases es <;> simp
    rw [hpred]
    cases hfind : st.allocated.reverse.find? (fun b => !b.2.isEmpty) with
    | none => rfl
    | some b =>
      obtain ⟨k, es⟩ := b
      simp only [Option.map_some]
      show (match (es.map (fun e => { e with created_at := f e.created_at })).getLast? with
            | some e => e.floating_ip
            | none => none) =
           (match es.getLast? with
            | some e => e.floating_ip
            | none => none)
      rw [List.getLast?_map]
      cases es.getLast? <;> rfl
  have hcyInv : stateCycles (remapTimes f st) = stateCycles st := rfl
  have hsuInv : stateSuccess (remapTimes f st) = stateSuccess st := rfl
  refine ⟨?_, ?_, ?_, ?_, ?_, ?_⟩
  · rw [hrun st]
    exact hcy st
  · rw [hrun st]
    exact hsu st
  · rw [hrun st]
    exact lastIpOfAllocated_eq_spec st.allocated
  · rw [hrun (remapTimes f st), hrun st]
    exact hcyInv
  · rw [hrun (remapTimes f st), hrun st]
    exact hsuInv
  · rw [hrun (remapTimes f st), hrun st]
    exact hmapIp

/-- **C2.** A status-cache refresh is atomic with respect to the persisted
store: when the save succeeds, the persisted document is the in-memory one
with the cache map replaced wholesale — every entry of the new map being the
fresh result of one of this poll's targets, no stale entry surviving — and
when persistence fails, the previously persisted document stands untouched. -/
theorem refresh_cache_replacement_atomic (targets : List Target)
    (doc prev : StatusDoc) (saveOk : Bool) (now : String) :
    (saveOk = true →
      api_refresh_store targets doc prev saveOk now =
        { doc with
          status_cache := buildStatusCache (api_refresh_results targets)
          last_update := some now } ∧
      ∀ kv ∈ (api_refresh_store targets doc prev saveOk now).status_cache,
        ∃ t ∈ targets,
          kv.1 = cacheKey t.server_id t.script_id ∧ kv.2 = fetch_status t) ∧
    (saveOk = false → api_refresh_store targets doc prev saveOk now = prev) := by
  constructor
  · intro hok
    subst hok
    refine ⟨rfl, ?_⟩
    intro kv hkv
    have hkv' : kv ∈ buildStatusCache (api_refresh_results targets) := hkv
    rcases mem_buildStatusCache _ _ hkv' with ⟨r, hr, hp⟩
    rcases List.mem_map.1 hr with ⟨t, ht, hrt⟩
    subst hrt
    subst hp
    exact ⟨t, ht, rfl, rfl⟩
  · intro hko
    subst hko
    rfl

/-- Concrete instance of C2: with a failing save, the persisted document is
exactly the previous one. -/
theorem refresh_cache_replacement_atomic_witness :
    api_refresh_store [] ⟨[], none, []⟩ ⟨[("1-1",
      ⟨1, 1, "s", "a", false, 0, 0, none, none, none, none⟩)], some "t0", []⟩
      false "t1" =
    ⟨[("1-1", ⟨1, 1, "s", "a", false, 0, 0, none, none, none, none⟩)],
      some "t0", []⟩ :=
  (refresh_cache_replacement_atomic [] ⟨[], none, []⟩
    ⟨[("1-1", ⟨1, 1, "s", "a", false, 0, 0, none, none, none, none⟩)],
      some "t0", []⟩ false "t1").2 rfl

/-- **C10.** Loading the persisted document never raises, and for every
on-disk state the result carries every top-level key the core reads; a
missing or corrupt file yields the fully empty default document; a parseable
document keeps its present keys' values and gets exactly the default value
for each missing key. -/
theorem load_data_defaults_complete :
    (∀ fs : FileState, coreKeys.all (fun k => hasKey (load_data fs) k) = true) ∧
    load_data .absent = emptyDoc ∧
    load_data .corrupt = emptyDoc ∧
    (∀ (d : List (String × JVal)) (k : String), hasKey d k = true →
      pyDictGet (load_data (.valid d)) k = pyDictGet d k) ∧
    (∀ (d : List (String × JVal)) (k : String), k ∈ coreKeys →
      hasKey d k = false →
      pyDictGet (load_data (.valid d)) k = pyDictGet emptyDoc k) := by
  refine ⟨?_, rfl, rfl, ?_, ?_⟩
  · intro fs
    cases fs with
    | absent => decide
    | corrupt => decide
    | valid d =>
      rw [List.all_eq_true]
      intro k hk
      show hasKey (withDefaults d) k = true
      rw [withDefaults_eq_foldl, hasKey_foldl_setdefault]
      have : hasKey emptyDoc k = true := by
        simp only [coreKeys, List.mem_cons, List.mem_singleton] at hk
        rcases hk with rfl | rfl | rfl | rfl | rfl | rfl | rfl | rfl | rfl | rfl | hk
        · decide
        · decide
        · decide
        · decide
        · decide
        · decide
        · decide
        · decide
        · decide
        · decide
        · exact absurd hk (List.not_mem_nil k)
      rw [this]
      cases hasKey d k <;> rfl
  · intro d k h
    show pyDictGet (withDefaults d) k = pyDictGet d k
    rw [withDefaults_eq_foldl, pyDictGet_foldl_setdefault]
    rcases Option.isSome_iff_exists.1 (pyDictGet_isSome_of_hasKey d k h) with ⟨x, hx⟩
    rw [hx]
  · intro d k hk hfalse
    have hnone := pyDictGet_eq_none_of_hasKey_false d k hfalse
    show pyDictGet (withDefaults d) k = pyDictGet emptyDoc k
    rw [withDefaults_eq_foldl, pyDictGet_foldl_setdefault, hnone]

theorem resolveServerName_nil (fixed_ip : Option String) :
    resolveServerName [] fixed_ip = none := by
  unfold resolveServerName
  cases h : truthyStr fixed_ip <;> simp [h]

/-- The address list of an API inventory result is either empty or the map
of `mkIpInfo` over the fetched floating IPs for some instance list. -/
theorem project_ips_shape (proj : ProjectRec) (env : CloudEnv) :
    (get_project_floating_ips proj env).ips = [] ∨
    ∃ servers fips, env.fips = .ok fips ∧
      (get_project_floating_ips proj env).ips = fips.map (mkIpInfo servers) := by
  obtain ⟨auth, fips0, inst0⟩ := env
  unfold get_project_floating_ips
  cases auth with
  | error f => exact Or.inl rfl
  | ok v =>
    obtain ⟨tok, eps, osn⟩ := v
    by_cases hn : truthyStr (pyDictGet eps "network") = true
    · simp only [hn, if_true]
      cases fips0 with
      | error f => exact Or.inl rfl
      | ok fips =>
        right
        exact ⟨(if truthyStr (pyDictGet eps "compute") then
            match inst0 with | .ok s => s | .error _ => [] else []), fips, rfl, rfl⟩
    · simp only [Bool.not_eq_true] at hn
      simp only [hn, Bool.false_eq_true, if_false]
      left
      trivial

/-- Likewise for the CLI inventory result. -/
theorem cli_ips_shape (env : CliEnv) :
    (get_floating_ips_via_cli env).ips = [] ∨
    ∃ l : List CliIp, (get_floating_ips_via_cli env).ips = l.map mkCliIpInfo := by
  obtain ⟨conn, fipCmd, envGrep⟩ := env
  unfold get_floating_ips_via_cli
  cases conn with
  | error e => exact Or.inl rfl
  | ok u =>
    cases fipCmd with
    | error e => exact Or.inl rfl
    | ok v =>
      obtain ⟨code, out, err⟩ := v
      cases envGrep with
      | error e => exact Or.inl rfl
      | ok w =>
        obtain ⟨c2, out2, err2⟩ := w
        by_cases hc : (code == 0) = true
        · simp only [hc, if_true]
          cases out with
          | blank =>
            left
            split_ifs <;> rfl
          | malformed m => exact Or.inl rfl
          | parsed ips => exact Or.inr ⟨ips, rfl⟩
        · simp only [Bool.not_eq_true] at hc
          simp only [hc, Bool.false_eq_true, if_false]
          left
          split_ifs <;> rfl

/-- **C4, counterexample.** The CLI inventory flags an address attached when
its `Port` field is empty but its `Fixed IP Address` is set, so the claimed
"attached exactly when the port/binding identifier is non-empty" fails. -/
theorem attached_iff_port_counterexample : ¬ attachedIffPortClaim := by
  intro h
  have := h.2
    ⟨.ok (), .ok (0, .parsed [⟨none, none, none, some "10.0.0.5", none⟩], ""),
     .ok (1, "", "")⟩
    (mkCliIpInfo ⟨none, none, none, some "10.0.0.5", none⟩) (by decide)
  exact absurd this (by decide)

/-- **C4, amended.** In the API-based inventory an address is attached
exactly when its port identifier is non-empty, independently of the
instance-name resolution (changing the instance-list outcome never changes
any attached flag); in the CLI-based inventory an address is attached exactly
when its port identifier is non-empty **or** its bound fixed address is
non-empty. -/
theorem attached_flag_amended :
    (∀ (proj : ProjectRec) (env : CloudEnv),
      ∀ info ∈ (get_project_floating_ips proj env).ips,
        info.attached = truthyStr info.port_id) ∧
    (∀ (proj : ProjectRec) (env : CloudEnv)
       (inst inst' : Except CloudFailure (List Instance)),
      ((get_project_floating_ips proj
          { env with instances := inst }).ips).map (fun i => i.attached) =
      ((get_project_floating_ips proj
          { env with instances := inst' }).ips).map (fun i => i.attached)) ∧
    (∀ env : CliEnv,
      ∀ rec ∈ (get_floating_ips_via_cli env).ips,
        rec.attached = (truthyStr rec.port_id || truthyStr rec.fixed_ip)) := by
  refine ⟨?_, ?_, ?_⟩
  · intro proj env info hinfo
    rcases project_ips_shape proj env with h | ⟨servers, fips, _, h⟩
    · rw [h] at hinfo
      exact absurd hinfo (List.not_mem_nil _)
    · rw [h] at hinfo
      rcases List.mem_map.1 hinfo with ⟨f, _, rfl⟩
      rfl
  · intro proj env inst inst'
    obtain ⟨auth, fips0, inst0⟩ := env
    unfold get_project_floating_ips
    cases auth with
    | error f => rfl
    | ok v =>
      obtain ⟨tok, eps, osn⟩ := v
      by_cases hn : truthyStr (pyDictGet eps "network") = true
      · simp only [hn, if_true]
        cases fips0 with
        | error f => rfl
        | ok fips =>
          simp only [List.map_map]
          rfl
      · simp only [Bool.not_eq_true] at hn
        simp only [hn, Bool.false_eq_true, if_false]
  · intro env rec hrec
    rcases cli_ips_shape env with h | ⟨l, h⟩
    · rw [h] at hrec
      exact absurd hrec (List.not_mem_nil _)
    · rw [h] at hrec
      rcases List.mem_map.1 hrec with ⟨e, _, rfl⟩
      rfl

/-- **C7.** `get_project_floating_ips` never fails past its own boundary:
a failed token exchange yields an empty address list and the failure text as
the error (the HTTP status when the failure was an HTTP rejection); a catalog
without a network endpoint yields an empty list and "No network endpoint";
and a failed instance listing is swallowed — the call still succeeds with no
error, every address record simply lacking a server name. -/
theorem inventory_failures_contained :
    (∀ (proj : ProjectRec) (f : CloudFailure)
       (fi : Except CloudFailure (List Fip))
       (ins : Except CloudFailure (List Instance)),
      get_project_floating_ips proj ⟨.error f, fi, ins⟩ =
        { name := proj.name, username := proj.username, os_project_name := none,
          ips := [], error := some (failText f) }) ∧
    (∀ n : Nat, failText (.http n) = "HTTP " ++ toString n) ∧
    (∀ (proj : ProjectRec) (tok : String) (eps : List (String × String))
       (osn : String) (fi : Except CloudFailure (List Fip))
       (ins : Except CloudFailure (List Instance)),
      truthyStr (pyDictGet eps "network") = false →
      get_project_floating_ips proj ⟨.ok (tok, eps, osn), fi, ins⟩ =
        { name := proj.name, username := proj.username,
          os_project_name := some osn, ips := [],
          error := some "No network endpoint" }) ∧
    (∀ (proj : ProjectRec) (tok : String) (eps : List (String × String))
       (osn : String) (fips : List Fip) (f : CloudFailure),
      truthyStr (pyDictGet eps "network") = true →
      get_project_floating_ips proj ⟨.ok (tok, eps, osn), .ok fips, .error f⟩ =
        { name := proj.name, username := proj.username,
          os_project_name := some osn, ips := fips.map (mkIpInfo []),
          error := none } ∧
      ∀ info ∈ (get_project_floating_ips proj
          ⟨.ok (tok, eps, osn), .ok fips, .error f⟩).ips,
        info.server_name = none) := by
  refine ⟨fun _ _ _ _ => rfl, fun _ => rfl, ?_, ?_⟩
  · intro proj tok eps osn fi ins hn
    unfold get_project_floating_ips
    simp only [hn, Bool.false_eq_true, if_false]
  · intro proj tok eps osn fips f hn
    have heq : get_project_floating_ips proj
        ⟨.ok (tok, eps, osn), .ok fips, .error f⟩ =
        { name := proj.name, username := proj.username,
          os_project_name := some osn, ips := fips.map (mkIpInfo []),
          error := none } := by
      unfold get_project_floating_ips
      simp only [hn, if_true]
      by_cases hc : truthyStr (pyDictGet eps "compute") = true
      · simp only [hc, if_true]
      · simp only [Bool.not_eq_true] at hc
        simp only [hc, Bool.false_eq_true, if_false]
    refine ⟨heq, ?_⟩
    intro info hinfo
    rw [heq] at hinfo
    rcases List.mem_map.1 hinfo with ⟨fp, _, rfl⟩
    show resolveServerName [] fp.fixed_ip_address = none
    exact resolveServerName_nil _

/-- Concrete instance of C7: an HTTP-rejected token exchange yields the empty
record with error "HTTP 401", and a catalog without a network endpoint yields
"No network endpoint". -/
theorem inventory_failures_contained_witness :
    get_project_floating_ips ⟨"p", "u", "pw", "pid", none, none⟩
        ⟨.error (.http 401), .ok [], .ok []⟩ =
      { name := "p", username := "u", os_project_name := none, ips := [],
        error := some "HTTP 401" } ∧
    get_project_floating_ips ⟨"p", "u", "pw", "pid", none, none⟩
        ⟨.ok ("tok", [("compute", "https://c")], "os-p"), .ok [], .ok []⟩ =
      { name := "p", username := "u", os_project_name := some "os-p", ips := [],
        error := some "No network endpoint" } := by
  constructor
  · exact (inventory_failures_contained).1 ⟨"p", "u", "pw", "pid", none, none⟩
      (.http 401) (.ok []) (.ok [])
  · exact (inventory_failures_contained).2.2.1 ⟨"p", "u", "pw", "pid", none, none⟩
      "tok" [("compute", "https://c")] "os-p" (.ok []) (.ok []) (by decide)

theorem find?_mapBucket (m : List (String × List ScriptInfo)) (k : String)
    (v : ScriptInfo) (L : String) :
    (m.map (fun p => if p.1 == k then (p.1, p.2 ++ [v]) else p)).find?
        (fun p => p.1 == L) =
      (m.find? (fun p => p.1 == L)).map
        (fun p => if p.1 == k then (p.1, p.2 ++ [v]) else p) := by
  induction m with
  | nil => rfl
  | cons q t ih =>
    have hfst : ((if q.1 == k then (q.1, q.2 ++ [v]) else q) :
        String × List ScriptInfo).1 = q.1 := by
      split <;> rfl
    simp only [List.map_cons, List.find?]
    rw [hfst]
    cases hq : (q.1 == L) with
    | true => simp
    | false => simpa using ih

/-- Content of one bucket after a `mapAppend`: the addressed bucket grows by
the new element at its end, every other bucket is unchanged. -/
theorem bucket_mapAppend (m : List (String × List ScriptInfo)) (k : String)
    (v : ScriptInfo) (L : String) :
    (pyDictGet (mapAppend m k v) L).getD [] =
      (if (L == k) = true then (pyDictGet m L).getD [] ++ [v]
       else (pyDictGet m L).getD []) := by
  unfold mapAppend
  by_cases hk : hasKey m k = true
  · rw [if_pos hk]
    unfold pyDictGet
    rw [find?_mapBucket]
    cases hf : m.find? (fun p => p.1 == L) with
    | none =>
      have hLk : (L == k) = false := by
        cases hb : (L == k) with
        | false => rfl
        | true =>
          have hLe : L = k := by simpa using hb
          subst hLe
          rcases List.any_eq_true.1 hk with ⟨p, hp, hpk⟩
          have hs : (m.find? (fun p => p.1 == L)).isSome = true :=
            List.find?_isSome.2 ⟨p, hp, hpk⟩
          rw [hf] at hs
          exact absurd hs (by simp)
      simp [hf, hLk]
    | some q =>
      have hqL : q.1 = L := by simpa using (List.find?_eq_some.1 hf).1
      simp only [Option.map_some', Option.getD_some]
      rw [hqL]
      split <;> rfl
  · rw [if_neg hk]
    unfold pyDictGet
    rw [List.find?_append]
    cases hf : m.find? (fun p => p.1 == L) with
    | some q =>
      have hqL : q.1 = L := by simpa using (List.find?_eq_some.1 hf).1
      have hLk : (L == k) = false := by
        cases hb : (L == k) with
        | false => rfl
        | true =>
          have hLe : L = k := by simpa using hb
          subst hLe
          have : hasKey m L = true :=
            List.any_eq_true.2 ⟨q, List.mem_of_find?_eq_some hf,
              by rw [hqL]; simp⟩
          exact absurd this hk
      simp [hf, hLk]
    | none =>
      cases hb : (L == k) with
      | true =>
        have hkL : (k == L) = true := by rw [beq_str_comm]; exact hb
        simp [hf, List.find?, hkL, hb]
      | false =>
        have hkL : (k == L) = false := by rw [beq_str_comm]; exact hb
        simp [hf, List.find?, hkL, hb]

/-- Bucket content of the whole grouping fold: the accumulator's bucket,
extended by the matching cache entries in cache order (empty labels are
never bucketed). -/
theorem projectScriptsMap_fold_bucket (sc : List (String × CacheEntry))
    (L : String) :
    ∀ m : List (String × List ScriptInfo),
    (pyDictGet (sc.foldl
        (fun m p =>
          match p.2.project with
          | some pn =>
            if pn.toList.isEmpty then m else mapAppend m pn (toScriptInfo p.1 p.2)
          | none => m) m) L).getD [] =
      (pyDictGet m L).getD [] ++
      (if L.toList.isEmpty then []
       else (sc.filter (fun p => p.2.project == some L)).map
         (fun p => toScriptInfo p.1 p.2)) := by
  induction sc with
  | nil =>
    intro m
    cases hL : L.toList.isEmpty <;> simp [hL]
  | cons p t ih =>
    intro m
    rw [List.foldl_cons]
    cases hp : p.2.project with
    | none =>
      simp only [hp]
      rw [ih m]
      have hpred : (p.2.project == some L) = false := by rw [hp]; rfl
      simp [List.filter_cons, hpred]
    | some pn =>
      simp only [hp]
      by_cases he : pn.toList.isEmpty = true
      · rw [if_pos he, ih m]
        cases hL : L.toList.isEmpty with
        | true => simp [hL]
        | false =>
          have hpred : (p.2.project == some L) = false := by
            rw [hp]
            show (pn == L) = false
            cases hb : (pn == L) with
            | false => rfl
            | true =>
              have hpe : pn = L := by simpa using hb
              subst hpe
              rw [hL] at he
              exact absurd he (by simp)
          simp [hL, List.filter_cons, hpred]
      · rw [if_neg he, ih (mapAppend m pn (toScriptInfo p.1 p.2)),
          bucket_mapAppend]
        cases hL : L.toList.isEmpty with
        | true =>
          have hLpn : (L == pn) = false := by
            cases hb : (L == pn) with
            | false => rfl
            | true =>
              have hLe : L = pn := by simpa using hb
              subst hLe
              exact absurd hL he
          simp [hLpn, hL]
        | false =>
          cases hb : (L == pn) with
          | true =>
            have hLe : L = pn := by simpa using hb
            subst hLe
            have hpred : (p.2.project == some L) = true := by
              rw [hp]
              show (L == L) = true
              simp
            simp [hb, List.filter_cons, hpred, hL]
          | false =>
            have hpred : (p.2.project == some L) = false := by
              rw [hp]
              show (pn == L) = false
              rw [beq_str_comm]
              exact hb
            simp [hb, List.filter_cons, hpred, hL]

/-- The projects map's bucket for a label is exactly the status-cache entries
observing that label, in cache order (empty when the label is empty). -/
theorem projectScriptsMap_bucket (sc : List (String × CacheEntry)) (L : String) :
    (pyDictGet (projectScriptsMap sc) L).getD [] =
      (if L.toList.isEmpty then []
       else (sc.filter (fun p => p.2.project == some L)).map
         (fun p => toScriptInfo p.1 p.2)) := by
  unfold projectScriptsMap
  rw [projectScriptsMap_fold_bucket]
  simp [pyDictGet]

theorem mem_labelList_iff (sc : List (String × CacheEntry)) (L : String)
    (info : ScriptInfo) :
    (info ∈ (if L.toList.isEmpty then ([] : List ScriptInfo)
       else (sc.filter (fun p => p.2.project == some L)).map
         (fun p => toScriptInfo p.1 p.2))) ↔
    (∃ p ∈ sc, p.2.project = some L ∧ L.toList.isEmpty = false ∧
      info = toScriptInfo p.1 p.2) := by
  cases hL : L.toList.isEmpty with
  | true => simp
  | false =>
    simp only [Bool.false_eq_true, if_false]
    constructor
    · intro h
      rcases List.mem_map.1 h with ⟨p, hpf, hfp⟩
      rcases List.mem_filter.1 hpf with ⟨hpsc, hpred⟩
      exact ⟨p, hpsc, by simpa using hpred, trivial, hfp.symm⟩
    · rintro ⟨p, hpsc, hproj, _, rfl⟩
      exact List.mem_map.2 ⟨p, List.mem_filter.2 ⟨hpsc, by simpa using hproj⟩, rfl⟩

theorem labelList_empty_iff (sc : List (String × CacheEntry)) (L : String) :
    ((if L.toList.isEmpty then ([] : List ScriptInfo)
       else (sc.filter (fun p => p.2.project == some L)).map
         (fun p => toScriptInfo p.1 p.2)).isEmpty = true) ↔
    ¬ ∃ p ∈ sc, p.2.project = some L ∧ L.toList.isEmpty = false := by
  constructor
  · intro h hex
    rcases hex with ⟨p, hp, hproj, hne⟩
    have hmem := (mem_labelList_iff sc L (toScriptInfo p.1 p.2)).2
      ⟨p, hp, hproj, hne, rfl⟩
    rw [List.isEmpty_iff] at h
    rw [h] at hmem
    exact absurd hmem (List.not_mem_nil _)
  · intro h
    rw [List.isEmpty_iff]
    by_contra hne
    rcases List.exists_mem_of_ne_nil _ hne with ⟨info, hinfo⟩
    rcases (mem_labelList_iff sc L info).1 hinfo with ⟨p, hp, hproj, hLne, _⟩
    exact h ⟨p, hp, hproj, hLne⟩

/-- Full characterization of the projects page's per-project script list: an
agent record is listed under a project **exactly when** its status-observed
label equals the project's cloud-observed name (`os_project_name or ""`,
non-empty), or — when that lookup yields no agents at all — its label equals
the project's configured name. -/
theorem scriptsForProject_mem_iff (sc : List (String × CacheEntry))
    (osn : Option String) (conf : String) (info : ScriptInfo) :
    info ∈ scriptsForProject sc osn conf ↔
      ((∃ p ∈ sc, p.2.project = some (osNameOf osn) ∧
         (osNameOf osn).toList.isEmpty = false ∧ info = toScriptInfo p.1 p.2) ∨
       ((¬ ∃ p ∈ sc, p.2.project = some (osNameOf osn) ∧
           (osNameOf osn).toList.isEmpty = false) ∧
        ∃ p ∈ sc, p.2.project = some conf ∧ conf.toList.isEmpty = false ∧
          info = toScriptInfo p.1 p.2)) := by
  have hres : scriptsForProject sc osn conf =
      (if ((if (osNameOf osn).toList.isEmpty then ([] : List ScriptInfo)
            else (sc.filter (fun p => p.2.project == some (osNameOf osn))).map
              (fun p => toScriptInfo p.1 p.2)).isEmpty = true)
       then (if conf.toList.isEmpty then ([] : List ScriptInfo)
             else (sc.filter (fun p => p.2.project == some conf)).map
               (fun p => toScriptInfo p.1 p.2))
       else (if (osNameOf osn).toList.isEmpty then ([] : List ScriptInfo)
             else (sc.filter (fun p => p.2.project == some (osNameOf osn))).map
               (fun p => toScriptInfo p.1 p.2))) := by
    simp only [scriptsForProject, osNameOf]
    rw [projectScriptsMap_bucket, projectScriptsMap_bucket]
  rw [hres]
  by_cases hempty : ((if (osNameOf osn).toList.isEmpty then ([] : List ScriptInfo)
      else (sc.filter (fun p => p.2.project == some (osNameOf osn))).map
        (fun p => toScriptInfo p.1 p.2)).isEmpty = true)
  · rw [if_pos hempty, mem_labelList_iff]
    have hguard := (labelList_empty_iff sc (osNameOf osn)).1 hempty
    constructor
    · intro h
      exact Or.inr ⟨hguard, h⟩
    · rintro (h | ⟨_, h⟩)
      · rcases h with ⟨p, hp, hproj, hne, _⟩
        exact absurd ⟨p, hp, hproj, hne⟩ hguard
      · exact h
  · rw [if_neg hempty, mem_labelList_iff]
    have hguard : ∃ p ∈ sc, p.2.project = some (osNameOf osn) ∧
        (osNameOf osn).toList.isEmpty = false := by
      by_contra hg
      exact hempty ((labelList_empty_iff sc (osNameOf osn)).2 hg)
    constructor
    · intro h
      exact Or.inl h
    · rintro (h | ⟨hng, _⟩)
      · exact h
      · exact absurd hguard hng

/-- **C5, counterexample.** In the dashboard merged view the cloud record is
selected by the shared `"sid-scid"` cache key, not by matching the status
record's observed project label: with the status record observing project
"A", the row shows the IPs of the same-key cloud record (labelled "B"), not
those of the record labelled "A". -/
theorem merged_view_label_selection_counterexample :
    ¬ mergedViewLabelSelectionClaim := by
  intro h
  have hc := h [⟨1, "s", [⟨1, "a", none⟩]⟩]
    [("1-1", ⟨1, 1, "s", "a", true, 0, 0, none, none, none, some "A"⟩)]
    [("1-1", ⟨[⟨some "5.5.5.5", none, none, none, none, false⟩], none, none, some "B"⟩),
     ("1-2", ⟨[], none, none, some "A"⟩)]
    ⟨1, "s", [⟨1, "a", none⟩]⟩ ⟨1, "a", none⟩ (by decide) (by decide)
  exact absurd hc (by decide)

/-- **C5, amended.** In the dashboard merged view, each (host, agent) key's
row takes its floating-address list and cloud error from the cloud record
stored under the **same** key, and shows the status-observed account/project
label when truthy, otherwise the cloud-observed one.  Label-based matching
exists only on the projects page, where an agent record is listed under a
project **exactly when** its status-observed label equals the project's
non-empty cloud-observed name (`os_project_name or ""`), or — only when that
lookup yields no agents at all — equals the project's non-empty configured
name. -/
theorem merged_view_key_selection_amended :
    (∀ (servers : List ServerRec) (status_cache : List (String × CacheEntry))
       (cloud_cache : List (String × CliResult)) (srv : ServerRec) (s : ScriptRec),
      srv ∈ servers → s ∈ srv.scripts →
      combineRow (pyDictGet status_cache (cacheKey srv.id s.id))
          (pyDictGet cloud_cache (cacheKey srv.id s.id)) ∈
        dashboardRows servers status_cache cloud_cache) ∧
    (∀ (status_cache : List (String × CacheEntry))
       (cloud_cache : List (String × CliResult)) (k : String),
      (combineRow (pyDictGet status_cache k) (pyDictGet cloud_cache k)).floating_ips =
        (match pyDictGet cloud_cache k with | some c => c.ips | none => []) ∧
      (combineRow (pyDictGet status_cache k) (pyDictGet cloud_cache k)).cloud_error =
        (match pyDictGet cloud_cache k with | some c => c.error | none => none) ∧
      (combineRow (pyDictGet status_cache k) (pyDictGet cloud_cache k)).account =
        pyOr (match pyDictGet status_cache k with | some c => c.account | none => none)
          (match pyDictGet cloud_cache k with | some c => c.account | none => none) ∧
      (combineRow (pyDictGet status_cache k) (pyDictGet cloud_cache k)).project =
        pyOr (match pyDictGet status_cache k with | some c => c.project | none => none)
          (match pyDictGet cloud_cache k with | some c => c.project | none => none)) ∧
    (∀ (status_cache : List (String × CacheEntry)) (osn : Option String)
       (conf : String) (info : ScriptInfo),
      info ∈ scriptsForProject status_cache osn conf ↔
        ((∃ p ∈ status_cache, p.2.project = some (osNameOf osn) ∧
           (osNameOf osn).toList.isEmpty = false ∧
           info = toScriptInfo p.1 p.2) ∨
         ((¬ ∃ p ∈ status_cache, p.2.project = some (osNameOf osn) ∧
             (osNameOf osn).toList.isEmpty = false) ∧
          ∃ p ∈ status_cache, p.2.project = some conf ∧
            conf.toList.isEmpty = false ∧
            info = toScriptInfo p.1 p.2))) := by
  refine ⟨?_, ?_, ?_⟩
  · intro servers status_cache cloud_cache srv s hsrv hs
    unfold dashboardRows
    exact List.mem_flatMap.2 ⟨srv, hsrv, List.mem_map.2 ⟨s, hs, rfl⟩⟩
  · intro status_cache cloud_cache k
    exact ⟨rfl, rfl, rfl, rfl⟩
  · intro status_cache osn conf info
    exact scriptsForProject_mem_iff status_cache osn conf info

/-- Concrete instance of the amended C5: the merged row of key "1-1" is one
of the dashboard rows. -/
theorem merged_view_key_selection_amended_witness :
    combineRow
        (pyDictGet [("1-1", (⟨1, 1, "s", "a", true, 0, 0, none, none, none,
          some "A"⟩ : CacheEntry))] (cacheKey 1 1))
        (pyDictGet [("1-1", (⟨[], none, none, some "B"⟩ : CliResult))] (cacheKey 1 1)) ∈
      dashboardRows [⟨1, "s", [⟨1, "a", none⟩]⟩]
        [("1-1", ⟨1, 1, "s", "a", true, 0, 0, none, none, none, some "A"⟩)]
        [("1-1", ⟨[], none, none, some "B"⟩)] :=
  (merged_view_key_selection_amended).1
    [⟨1, "s", [⟨1, "a", none⟩]⟩]
    [("1-1", ⟨1, 1, "s", "a", true, 0, 0, none, none, none, some "A"⟩)]
    [("1-1", ⟨[], none, none, some "B"⟩)]
    ⟨1, "s", [⟨1, "a", none⟩]⟩ ⟨1, "a", none⟩ (by decide) (by decide)

/-- **C9.** In the CLI-based inventory poll, when the remote command exits
nonzero or prints nothing and the SSH stderr stream is empty, the result has
an empty address list and `error = None` — byte-for-byte the same record a
successful poll of a project with no addresses produces. -/
theorem cli_silent_failure_indistinguishable :
    (∀ (c : Nat) (out : CliOut) (c2 : Nat) (out2 err2 : String),
      get_floating_ips_via_cli ⟨.ok (), .ok (c + 1, out, ""), .ok (c2, out2, err2)⟩ =
        { ips := [], error := none, account := (parseEnvGrep c2 out2).1,
          project := (parseEnvGrep c2 out2).2 }) ∧
    (∀ (c2 : Nat) (out2 err2 : String),
      get_floating_ips_via_cli ⟨.ok (), .ok (0, .blank, ""), .ok (c2, out2, err2)⟩ =
        { ips := [], error := none, account := (parseEnvGrep c2 out2).1,
          project := (parseEnvGrep c2 out2).2 }) ∧
    (∀ (c : Nat) (out : CliOut) (c2 : Nat) (out2 err2 : String),
      get_floating_ips_via_cli ⟨.ok (), .ok (c + 1, out, ""), .ok (c2, out2, err2)⟩ =
      get_floating_ips_via_cli ⟨.ok (), .ok (0, .parsed [], ""), .ok (c2, out2, err2)⟩) :=
  ⟨fun _ _ _ _ _ => rfl, fun _ _ _ => rfl, fun _ _ _ _ _ => rfl⟩

theorem patchEnvStep_eq (updates : List (String × String))
    (acc : List String × List String) (line : String) :
    patchEnvStep updates acc line =
      (acc.1 ++ [patchOneLine updates line],
       match keyHit updates line with
       | some k => acc.2 ++ [k]
       | none => acc.2) := by
  unfold patchEnvStep patchOneLine keyHit
  dsimp only
  by_cases hc : ((pyStrip line).toList.isEmpty || pyStartsWith (pyStrip line) "#") = true
  · rw [if_pos hc, if_pos hc, if_pos hc]
  · rw [if_neg hc, if_neg hc, if_neg hc]
    cases he : envLineKey (pyStrip line) with
    | none => rfl
    | some k =>
      simp only [he]
      cases hf : updates.find? (fun p => p.1 == k) with
      | none => simp [hf]
      | some p => simp [hf]

theorem patchEnv_foldl (updates : List (String × String)) (lines : List String) :
    ∀ acc : List String × List String,
    lines.foldl (patchEnvStep updates) acc =
      (acc.1 ++ lines.map (patchOneLine updates),
       acc.2 ++ lines.filterMap (keyHit updates)) := by
  induction lines with
  | nil =>
    intro acc
    simp
  | cons l t ih =>
    intro acc
    rw [List.foldl_cons, patchEnvStep_eq, ih]
    cases hk : keyHit updates l with
    | none => simp [List.filterMap_cons, hk]
    | some k => simp [List.filterMap_cons, hk]

/-- **C8.** The rebind rewrites the credential file by replacing exactly the
recognized identity keys in place and preserving every other line
byte-for-byte: the patched file is the original lines mapped through a pure
per-line function — the identity on every line that hits no recognized key
(comments, blanks, unrecognized keys), and `key="value"` on every line whose
key is recognized — followed by exactly the recognized keys no line hit,
appended in `updates` order.  The remote steps are read → write → restart:
a failure (raise or nonzero exit) at any step yields `(False, that step's
message)` and attempts none of the remaining steps, and only a successful
write puts the patched content in place. -/
theorem rebind_patch_and_failfast :
    (∀ (updates : List (String × String)) (lines : List String),
      patchEnvLines updates lines =
        lines.map (patchOneLine updates) ++
        (updates.filter
          (fun p => !((lines.filterMap (keyHit updates)).contains p.1))).map
          (fun p => mkEnvLine p.1 p.2)) ∧
    (∀ (updates : List (String × String)) (line : String),
      keyHit updates line = none → patchOneLine updates line = line) ∧
    (∀ (updates : List (String × String)) (line k : String),
      keyHit updates line = some k →
      ∃ v, pyDictGet updates k = some v ∧
        patchOneLine updates line = mkEnvLine k v) ∧
    (∀ (project : ProjectRec) (e : String)
       (r w rs : Except String (Nat × String × String)),
      change_script_project project ⟨.error e, r, w, rs⟩ = ⟨false, e, [], none⟩) ∧
    (∀ (project : ProjectRec) (e : String)
       (w rs : Except String (Nat × String × String)),
      change_script_project project ⟨.ok (), .error e, w, rs⟩ =
        ⟨false, e, [.readEnv], none⟩) ∧
    (∀ (project : ProjectRec) (c : Nat) (cur err : String)
       (w rs : Except String (Nat × String × String)),
      change_script_project project ⟨.ok (), .ok (c + 1, cur, err), w, rs⟩ =
        ⟨false, "Failed to read .env: " ++ err, [.readEnv], none⟩) ∧
    (∀ (project : ProjectRec) (cur err e : String)
       (rs : Except String (Nat × String × String)),
      change_script_project project ⟨.ok (), .ok (0, cur, err), .error e, rs⟩ =
        ⟨false, e, [.readEnv, .writeEnv], none⟩) ∧
    (∀ (project : ProjectRec) (cur err : String) (c : Nat) (wout werr : String)
       (rs : Except String (Nat × String × String)),
      change_script_project project
          ⟨.ok (), .ok (0, cur, err), .ok (c + 1, wout, werr), rs⟩ =
        ⟨false, "Failed to write .env: " ++ werr, [.readEnv, .writeEnv], none⟩) ∧
    (∀ (project : ProjectRec) (cur err wout werr e : String),
      change_script_project project
          ⟨.ok (), .ok (0, cur, err), .ok (0, wout, werr), .error e⟩ =
        ⟨false, e, [.readEnv, .writeEnv, .restartSvc],
          some (change_env_content (buildUpdates project) cur)⟩) ∧
    (∀ (project : ProjectRec) (cur err wout werr : String) (c : Nat)
       (rout rerr : String),
      change_script_project project
          ⟨.ok (), .ok (0, cur, err), .ok (0, wout, werr), .ok (c + 1, rout, rerr)⟩ =
        ⟨false, "Failed to restart service: " ++ rerr,
          [.readEnv, .writeEnv, .restartSvc],
          some (change_env_content (buildUpdates project) cur)⟩) ∧
    (∀ (project : ProjectRec) (cur err wout werr rout rerr : String),
      change_script_project project
          ⟨.ok (), .ok (0, cur, err), .ok (0, wout, werr), .ok (0, rout, rerr)⟩ =
        ⟨true, "Проект изменён на " ++ project.name ++ ", скрипт перезапущен",
          [.readEnv, .writeEnv, .restartSvc],
          some (change_env_content (buildUpdates project) cur)⟩) := by
  refine ⟨?_, ?_, ?_, fun _ _ _ _ _ => rfl, fun _ _ _ _ => rfl,
    fun _ _ _ _ _ _ => rfl, fun _ _ _ _ _ => rfl, fun _ _ _ _ _ _ _ => rfl,
    fun _ _ _ _ _ _ => rfl, fun _ _ _ _ _ _ _ _ => rfl,
    fun _ _ _ _ _ _ _ => rfl⟩
  · intro updates lines
    unfold patchEnvLines
    rw [patchEnv_foldl]
    simp
  · intro updates line hk
    unfold keyHit at hk
    unfold patchOneLine
    dsimp only at hk ⊢
    split at hk
    · rename_i hc
      rw [if_pos hc]
    · rename_i hc
      rw [if_neg hc]
      cases he : envLineKey (pyStrip line) with
      | none => rfl
      | some k =>
        simp only [he] at hk ⊢
        cases hf : updates.find? (fun p => p.1 == k) with
        | none => simp [hf]
        | some p =>
          rw [hf] at hk
          simp at hk
  · intro updates line k hk
    unfold keyHit at hk
    unfold patchOneLine
    dsimp only at hk ⊢
    split at hk
    · exact absurd hk (by simp)
    · rename_i hc
      rw [if_neg hc]
      cases he : envLineKey (pyStrip line) with
      | none => simp [he] at hk
      | some k' =>
        simp only [he] at hk ⊢
        cases hf : updates.find? (fun p => p.1 == k') with
        | none =>
          rw [hf] at hk
          simp at hk
        | some p =>
          rw [hf] at hk
          simp only [Option.isSome_some, if_true] at hk
          have hkk : k' = k := by simpa using hk
          subst hkk
          refine ⟨p.2, ?_, rfl⟩
          unfold pyDictGet
          rw [hf]
          rfl

/-- Concrete instance of C8: a comment line is preserved byte-for-byte, a
recognized key line is replaced with the quoted new value, and a failed read
reports that step's message without attempting the write or the restart. -/
theorem rebind_patch_and_failfast_witness :
    patchOneLine [("OS_USERNAME", "u2")] "# comment" = "# comment" ∧
    (∃ v, pyDictGet [("OS_USERNAME", "u2")] "OS_USERNAME" = some v ∧
      patchOneLine [("OS_USERNAME", "u2")] "OS_USERNAME=old" =
        mkEnvLine "OS_USERNAME" v) ∧
    change_script_project ⟨"p", "u", "pw", "pid", none, none⟩
        ⟨.ok (), .ok (0 + 1, "", "boom"), .ok (0, "", ""), .ok (0, "", "")⟩ =
      ⟨false, "Failed to read .env: boom", [.readEnv], none⟩ := by
  refine ⟨?_, ?_, ?_⟩
  · exact (rebind_patch_and_failfast).2.1 [("OS_USERNAME", "u2")] "# comment"
      (by decide)
  · exact (rebind_patch_and_failfast).2.2.1 [("OS_USERNAME", "u2")]
      "OS_USERNAME=old" "OS_USERNAME" (by decide)
  · exact (rebind_patch_and_failfast).2.2.2.2.2.1
      ⟨"p", "u", "pw", "pid", none, none⟩ 0 "" "boom" (.ok (0, "", ""))
      (.ok (0, "", ""))

end VKPanel
